import Mathlib

/-!
Shallow embedding of the summarize-render-publish pipeline of the
genai-knowledge-capture-webapp repository
(src/lib/lambda-functions/summarize_and_generate and
src/lib/lambda-functions/orchestration).

External collaborators (the Bedrock LLM chain, boto3 S3 calls, the base64
decoder, the markdown renderer, weasyprint, the clock) are modelled as
components of an environment record `Env`; the repository code itself is
translated function by function.  Side effects on the LLM endpoint and the
object store are recorded as an explicit list of `Event` values returned
alongside each result, and Python exceptions are modelled by `Except PyErr`.
-/

namespace KnowledgeCapture

/-- Python exception values that can travel through the pipeline.
`codeError` embeds the repository class `CodeError` (exceptions.py);
`unboundLocal` embeds the UnboundLocalError raised by the dangling
`return summary_text` in `parse_summary`; `outputParser` embeds the
langchain OutputParserException raised on malformed XML; `dependency`
embeds boto3 and Bedrock client failures; `binascii` embeds the
base64 decode failure; `typeError` and `valueError` embed the
corresponding Python builtins (e.g. the UnicodeDecodeError, a ValueError
subclass, raised by a failing unicode-escape decode). -/
inductive PyErr where
  | codeError (msg : String)
  | unboundLocal
  | outputParser (msg : String)
  | dependency (msg : String)
  | binascii (msg : String)
  | typeError (msg : String)
  | valueError (msg : String)
  deriving DecidableEq

/-- The str() rendering of an exception, used when a caught exception is
interpolated into a CodeError message. -/
def pyMsg : PyErr → String
  | .codeError m => m
  | .unboundLocal => "local variable referenced before assignment"
  | .outputParser m => m
  | .dependency m => m
  | .binascii m => m
  | .typeError m => m
  | .valueError m => m

/-- A Python value as produced by the langchain XMLOutputParser: nested
dictionaries, lists and strings (plus None for empty tags). -/
inductive PyVal where
  | str (s : String)
  | noneVal
  | list (xs : List PyVal)
  | dict (entries : List (String × PyVal))

/-- One observable call on an external collaborator: an LLM chain
invocation, an object-store write (upload_file or put_object, with the
success of the call recorded), or the minting of a presigned URL. -/
inductive Event where
  | llmInvoke (question : String) (inputTexts : List String)
  | uploadFile (bucket key contentType : String) (ok : Bool)
  | putObject (bucket key : String) (body : List Nat) (ok : Bool)
  | presign (bucket key clientMethod : String) (expiresIn : Nat)
  deriving DecidableEq

/-- The UTC wall clock read by datetime.datetime.now(datetime.timezone.utc),
down to microseconds. -/
structure UtcTime where
  year : Nat
  month : Nat
  day : Nat
  hour : Nat
  minute : Nat
  second : Nat
  micro : Nat
  deriving DecidableEq

/-- Zero-padding of a numeric strftime field to a fixed width. -/
def pad (w n : Nat) : String :=
  String.mk (List.replicate (w - (toString n).length) '0') ++ toString n

/-- strftime "%Y-%m-%d_%H-%M-%S_%f" on a UTC clock reading: the session
identifier minted in generate_document (generate.py line 47). -/
def fmtSession (t : UtcTime) : String :=
  pad 4 t.year ++ "-" ++ pad 2 t.month ++ "-" ++ pad 2 t.day ++ "_" ++
    pad 2 t.hour ++ "-" ++ pad 2 t.minute ++ "-" ++ pad 2 t.second ++ "_" ++
    pad 6 t.micro

/-- The environment of external collaborators and process-wide
configuration (connections.py): the S3 bucket and service name read from
environment variables, the outcome of the prompt-LLM-XMLparser chain, the
base64 decoder, the outcomes of the two S3 write calls, the (pure,
deterministic) presigned-URL computation of the S3 client, the weasyprint
PDF renderer outcome, the markdown library, the unicode-escape decode,
the two clock readings, and the temp-file path handed out by tempfile. -/
structure Env where
  bucket : String
  serviceName : String
  chainInvoke : String → List String → Except PyErr PyVal
  b64decode : String → Except PyErr (List Nat)
  uploadFileResult : String → String → Except PyErr Unit
  putObjectResult : String → List Nat → Except PyErr Unit
  presign : String → String → String
  renderPdf : String → Except PyErr Unit
  markdown : String → String
  unicodeEscape : String → Except PyErr String
  utcNow : UtcTime
  composeClock : String
  tempPath : String

/-- utils.generate_presigned_url: always a get_object URL with
ExpiresIn = 86400. -/
def generate_presigned_url (env : Env) (bucket key : String) :
    String × List Event :=
  (env.presign bucket key, [Event.presign bucket key "get_object" 86400])

/-- The lookup chain summary["Output"][0]["Summary"] of utils.parse_summary,
with Python indexing semantics: any type mismatch, missing key or empty
list makes the chain raise (collapsed to `none`, since parse_summary
catches every exception alike). -/
def parseChain (summary : PyVal) : Option PyVal :=
  match summary with
  | .dict entries =>
    match entries.lookup "Output" with
    | some (.list (first :: _)) =>
      match first with
      | .dict inner => inner.lookup "Summary"
      | _ => none
    | _ => none
  | _ => none

/-- utils.parse_summary: tries the tag lookup; on any exception it only
logs at debug level, after which the function-level `return summary_text`
raises UnboundLocalError because `summary_text` was never assigned. -/
def parse_summary (summary : PyVal) : Except PyErr PyVal :=
  match parseChain summary with
  | some v => .ok v
  | none => .error .unboundLocal

/-- summarization.summarization: invokes the prompt | llm | XMLOutputParser
chain and feeds the parsed structure through parse_summary.  The chain
invocation is recorded as an `llmInvoke` event. -/
def summarization (env : Env) (question : String)
    (list_of_answers : List String) : Except PyErr PyVal × List Event :=
  (match env.chainInvoke question list_of_answers with
   | .error e => .error e
   | .ok ans => parse_summary ans,
   [Event.llmInvoke question list_of_answers])

/-- document_generator.markdown_to_html, with the markdown library as an
oracle. -/
def markdown_to_html (env : Env) (markdown_text : String) : String :=
  env.markdown markdown_text

/-- document_generator.add_document_title: the dominate rendering of
h1(u(title_text), style="text-align: center;"). -/
def add_document_title (title_text : String) : String :=
  "<h1 style=\"text-align: center;\"><u>" ++ title_text ++ "</u></h1>"

/-- The part of STYLE_CSS.format(current_time) before the inserted
timestamp (document_generator.py, with the doubled braces of the source
collapsed by .format). -/
def styleCssPre : String :=
  "\n        h1 \x7b\n            position: center;\n        \x7d\n        header \x7b\n            position: running(header);\n        \x7d\n        @page \x7b\n            size: Letter portrait;\n            margin-top: 3cm;\n\n            @top-right \x7b\n                content: \x27"

/-- The part of STYLE_CSS.format(current_time) after the inserted
timestamp. -/
def styleCssPost : String :=
  "\x27;\n                font-size: 10px;\n            \x7d\n            @bottom-center \x7b\n                content: counter(page);\n            \x7d\n            @bottom-right \x7b\n                content: \x27Document generated using AWS Bedrock Service\x27;\n                font-size: 10px;\n            \x7d\n        \x7d\n    "

/-- document_generator.generate_html: wraps the body fragment in a
head/style/body document whose stylesheet embeds the composition-time
clock reading (strftime at the moment generate_html runs). -/
def generate_html (current_time : String) (html_body : String) : String :=
  "<html>\n  <head>\n    <style>" ++ styleCssPre ++ current_time ++
    styleCssPost ++ "</style>\n  </head>\n  <body>" ++ html_body ++
    "</body>\n</html>"

/-- document_generator.html_to_pdf: any rendering failure is re-raised as
a CodeError. -/
def html_to_pdf (env : Env) (html_document : String) : Except PyErr Unit :=
  match env.renderPdf html_document with
  | .error e => .error (.codeError ("Error while generating PDF file: " ++ pyMsg e))
  | .ok _ => .ok ()

/-- generate.generate_pdf: writes the temp file and converts the HTML to
PDF at the temp path, returning that path. -/
def generate_pdf (env : Env) (html_content : String) : Except PyErr String :=
  match html_to_pdf env html_content with
  | .error e => .error e
  | .ok _ => .ok env.tempPath

/-- bytes(document_text, "utf-8"): raises TypeError when the argument is
not a str (parse_summary may hand back any tag payload). -/
def pyStr : PyVal → Except PyErr String
  | .str s => .ok s
  | _ => .error (.typeError "encoding without a string argument")

/-- Python str.strip(): the text with leading and trailing whitespace
removed. -/
def pyStrip (text : String) : String :=
  String.mk (((text.data.dropWhile Char.isWhitespace).reverse.dropWhile
    Char.isWhitespace).reverse)

/-- The quote-stripping step of generate.render_html_body: when the
decoded text both starts and ends with a double quote (Python
str.startswith and str.endswith with a one-character argument test the
first and last character), the Python slice text[1:-1] removes exactly
the first and the last character. -/
def stripEnclosingQuotes (text : String) : String :=
  if text.data.head? == some '"' && text.data.getLast? == some '"' then
    String.mk (text.data.drop 1).dropLast
  else text

/-- generate.render_html_body: title heading, then unicode-escape decode
of the summary, quote stripping, whitespace strip and markdown
conversion; any exception in the try block is re-raised as a CodeError. -/
def render_html_body (env : Env) (document_title : String)
    (document_text : PyVal) : Except PyErr String :=
  let document_body := "" ++ add_document_title document_title
  match (match pyStr document_text with
         | .error e => .error e
         | .ok s => env.unicodeEscape s : Except PyErr String) with
  | .error e =>
    .error (.codeError ("Error while generating HTML body: " ++ pyMsg e))
  | .ok text =>
    .ok (document_body ++ markdown_to_html env (pyStrip (stripEnclosingQuotes text)))

/-- generate.upload_pdf_to_s3: uploads the PDF under
session_id/document_name.pdf and, once the write has returned, mints the
presigned URL for that key. -/
def upload_pdf_to_s3 (env : Env) (session_id file_path document_name : String) :
    Except PyErr String × List Event :=
  let bucket := env.bucket
  let key := session_id ++ "/" ++ document_name ++ ".pdf"
  match env.uploadFileResult file_path key with
  | .error e => (.error e, [Event.uploadFile bucket key "application/pdf" false])
  | .ok _ =>
    let signed := generate_presigned_url env bucket key
    (.ok signed.1, Event.uploadFile bucket key "application/pdf" true :: signed.2)

/-- The object key of the audio clip at a given enumerate index
(generate.py line 98). -/
def audioKey (session_id document_name : String) (i : Nat) : String :=
  session_id ++ "/" ++ document_name ++ "_audio_" ++ toString i ++ ".webm"

/-- The enumerate loop of generate.upload_audio_to_s3, generalized over
the running index: decode each clip, put it, mint its URL, and collect
the URLs in input order.  The first failing decode or put raises out of
the loop. -/
def uploadAudioLoop (env : Env) (session_id document_name : String) :
    Nat → List String → Except PyErr (List String) × List Event
  | _, [] => (.ok [], [])
  | i, audio_file :: rest =>
    let bucket := env.bucket
    let key := audioKey session_id document_name i
    match env.b64decode audio_file with
    | .error e => (.error e, [])
    | .ok audio_data =>
      match env.putObjectResult key audio_data with
      | .error e => (.error e, [Event.putObject bucket key audio_data false])
      | .ok _ =>
        let signed := generate_presigned_url env bucket key
        let evs := Event.putObject bucket key audio_data true :: signed.2
        match uploadAudioLoop env session_id document_name (i + 1) rest with
        | (.error e, tr) => (.error e, evs ++ tr)
        | (.ok urls, tr) => (.ok (signed.1 :: urls), evs ++ tr)

/-- generate.upload_audio_to_s3: the enumerate loop started at index 0. -/
def upload_audio_to_s3 (env : Env) (session_id document_name : String)
    (audio_files : List String) : Except PyErr (List String) × List Event :=
  uploadAudioLoop env session_id document_name 0 audio_files

/-- The Response dataclass of generate.py. -/
structure GenResponse where
  statusCode : Nat
  pdfFileS3Uri : String
  audioS3Uris : List String
  documentName : String
  serviceName : String
  deriving DecidableEq

/-- generate.generate_document: render the body, compose the HTML, export
the PDF, mint one session id, upload the PDF and then the audio clips;
any exception is re-raised as CodeError. -/
def generate_document (env : Env) (document_name document_title : String)
    (document_text : PyVal) (audio_files : List String) :
    Except PyErr GenResponse × List Event :=
  match render_html_body env document_title document_text with
  | .error e => (.error (.codeError ("Error generating document: " ++ pyMsg e)), [])
  | .ok html_body =>
    let html_content := generate_html env.composeClock html_body
    match generate_pdf env html_content with
    | .error e => (.error (.codeError ("Error generating document: " ++ pyMsg e)), [])
    | .ok pdf_file_path =>
      let session_id := fmtSession env.utcNow
      match upload_pdf_to_s3 env session_id pdf_file_path document_name with
      | (.error e, tr) =>
        (.error (.codeError ("Error generating document: " ++ pyMsg e)), tr)
      | (.ok pdf_s3_url, tr) =>
        match upload_audio_to_s3 env session_id document_name audio_files with
        | (.error e, tr2) =>
          (.error (.codeError ("Error generating document: " ++ pyMsg e)), tr ++ tr2)
        | (.ok audio_s3_urls, tr2) =>
          (.ok { statusCode := 200, pdfFileS3Uri := pdf_s3_url,
                 audioS3Uris := audio_s3_urls, documentName := document_name,
                 serviceName := env.serviceName }, tr ++ tr2)

/-- The JSON body of the handler response (summarize_generate.py). -/
structure ResponseBody where
  pdfFileS3Uri : Option String
  audioS3Uris : Option (List String)
  documentName : String
  deriving DecidableEq

/-- The Response dataclass of summarize_generate.py (the constant CORS
headers are omitted). -/
structure Response where
  statusCode : Nat
  body : ResponseBody
  deriving DecidableEq

/-- The parsed Request model of summarize_generate.py. -/
structure Request where
  documentName : String
  questionText : String
  documentText : String
  audioFiles : List String
  deriving DecidableEq

/-- summarize_generate.lambda_handler: empty documentText short-circuits
to a 400 response with null artifact fields; otherwise summarize, then
generate and upload, mapping the generate_document status through
`200 if doc_response.statusCode == 200 else 400`.  Exceptions raised by
the stages propagate out of the handler uncaught. -/
def lambda_handler (env : Env) (request : Request) :
    Except PyErr Response × List Event :=
  if request.documentText = "" then
    (.ok { statusCode := 400,
           body := { pdfFileS3Uri := none, audioS3Uris := none,
                     documentName := request.documentName } }, [])
  else
    match summarization env request.questionText [request.documentText] with
    | (.error e, tr) => (.error e, tr)
    | (.ok summary_text, tr) =>
      match generate_document env request.documentName request.questionText
              summary_text request.audioFiles with
      | (.error e, tr2) => (.error e, tr ++ tr2)
      | (.ok doc_response, tr2) =>
        (.ok { statusCode := if doc_response.statusCode = 200 then 200 else 400,
               body := { pdfFileS3Uri := some doc_response.pdfFileS3Uri,
                         audioS3Uris := some doc_response.audioS3Uris,
                         documentName := request.documentName } }, tr ++ tr2)

/-- Modelled from the spec: the HTTP status a caller observes for a run.
src/ holds only the Lambda function code; the API layer in front of it
(infrastructure code not under src/) turns an unhandled function error
into the 500-equivalent failure response the spec describes, while a
returned Response carries its own statusCode. -/
def pipelineStatus (outcome : Except PyErr Response) : Nat :=
  match outcome with
  | .ok r => r.statusCode
  | .error _ => 500

/-- Whether the run raised an uncaught exception out of the handler. -/
def raised (outcome : Except PyErr Response) : Bool :=
  match outcome with
  | .error _ => true
  | .ok _ => false

/-- A concrete all-succeeding environment used to witness the theorems on
sample inputs.  The chain returns a well-tagged summary, base64 decoding
fails exactly on the input string made of percent signs, unicode-escape
decoding fails exactly on a lone backslash-x, and the input string q
decodes to a double-quoted summary. -/
def testEnv : Env where
  bucket := "bkt"
  serviceName := "svc"
  chainInvoke := fun _ _ =>
    .ok (.dict [("Output", .list [.dict [("Summary", .str "**ok** summary")]])])
  b64decode := fun f =>
    if f = "%%%" then .error (.binascii "Invalid base64-encoded string")
    else .ok (f.data.map Char.toNat)
  uploadFileResult := fun _ _ => .ok ()
  putObjectResult := fun _ _ => .ok ()
  presign := fun _ key => "https://s3.example/" ++ key ++ "?sig"
  renderPdf := fun _ => .ok ()
  markdown := fun t => "<p>" ++ t ++ "</p>"
  unicodeEscape := fun s =>
    if s = "\\x" then .error (.valueError "unicodeescape codec decode failure")
    else if s = "q" then .ok "\"quoted\""
    else .ok s
  utcNow := { year := 2024, month := 5, day := 6, hour := 7, minute := 8,
              second := 9, micro := 10 }
  composeClock := "05-06-2024 07:08:09"
  tempPath := "/tmp/out.pdf"

/-- The environment in which the LLM chain parses successfully but the
Output/Summary tag structure is absent. -/
def tagAbsentEnv : Env :=
  { testEnv with chainInvoke := fun _ _ => .ok (.dict []) }

/-- The environment in which the LLM output is not well-formed XML, so the
XMLOutputParser in the chain itself raises. -/
def malformedXmlEnv : Env :=
  { testEnv with
    chainInvoke := fun _ _ => .error (.outputParser "Failed to parse XML") }

/-- A request with all fields populated, used by witnesses. -/
def okRequest : Request :=
  { documentName := "report", questionText := "What happened?",
    documentText := "Item A failed at 10:00.", audioFiles := ["AA", "B"] }

/-! ## Helper lemmas -/

/-- Every successfully returned generate_document response carries
statusCode 200. -/
theorem generate_document_ok_status (env : Env) (n t : String) (x : PyVal)
    (fs : List String) (g : GenResponse)
    (h : (generate_document env n t x fs).1 = .ok g) : g.statusCode = 200 := by
  rcases hr : render_html_body env t x with e | body
  · simp [generate_document, hr] at h
  · rcases hp : generate_pdf env (generate_html env.composeClock body) with e | path
    · simp [generate_document, hr, hp] at h
    · rcases hu : upload_pdf_to_s3 env (fmtSession env.utcNow) path n with ⟨ru, tru⟩
      cases ru with
      | error e => simp [generate_document, hr, hp, hu] at h
      | ok pdfUrl =>
        rcases ha : upload_audio_to_s3 env (fmtSession env.utcNow) n fs
          with ⟨ra, tra⟩
        cases ra with
        | error e => simp [generate_document, hr, hp, hu, ha] at h
        | ok urls =>
          simp [generate_document, hr, hp, hu, ha] at h
          rw [← h]

/-! ## C1 -/

/-- C1: for every inbound request, the status a caller observes is 400
exactly when the input document text was empty, 500 exactly when a
downstream stage raised out of the handler, and 200 otherwise. -/
theorem statusCode_classification (env : Env) (request : Request) :
    (pipelineStatus (lambda_handler env request).1 = 400 ↔
      request.documentText = "") ∧
    (pipelineStatus (lambda_handler env request).1 = 500 ↔
      raised (lambda_handler env request).1 = true) ∧
    (request.documentText ≠ "" → raised (lambda_handler env request).1 = false →
      pipelineStatus (lambda_handler env request).1 = 200) := by
  by_cases ht : request.documentText = ""
  · simp [lambda_handler, ht, pipelineStatus, raised]
  · rcases hsum : summarization env request.questionText [request.documentText]
      with ⟨res, tr1⟩
    cases res with
    | error e =>
      simp [lambda_handler, ht, hsum, pipelineStatus, raised]
    | ok summary =>
      rcases hgen : generate_document env request.documentName
          request.questionText summary request.audioFiles with ⟨gres, tr2⟩
      cases gres with
      | error e =>
        simp [lambda_handler, ht, hsum, hgen, pipelineStatus, raised]
      | ok g =>
        have h200 : g.statusCode = 200 :=
          generate_document_ok_status env request.documentName
            request.questionText summary request.audioFiles g (by rw [hgen])
        simp [lambda_handler, ht, hsum, hgen, pipelineStatus, raised, h200]

/-- Witness for C1: a run of the sample request in the all-succeeding
environment observes status 200. -/
theorem statusCode_classification_witness :
    pipelineStatus (lambda_handler testEnv okRequest).1 = 200 :=
  (statusCode_classification testEnv okRequest).2.2 (by decide) (by decide)

/-! ## C2 -/

/-- C2: a request with empty documentText produces the 400 response with
null pdfFileS3Uri and null audioS3Uris, and its event trace is empty: in
particular the LLM endpoint and the object store are never invoked. -/
theorem empty_text_short_circuit (env : Env) (request : Request)
    (h : request.documentText = "") :
    lambda_handler env request =
      (.ok { statusCode := 400,
             body := { pdfFileS3Uri := none, audioS3Uris := none,
                       documentName := request.documentName } }, []) := by
  simp [lambda_handler, h]

/-- Witness for C2 at a concrete empty-text request. -/
theorem empty_text_short_circuit_witness :
    lambda_handler testEnv
        { documentName := "report", questionText := "What happened?",
          documentText := "", audioFiles := ["AA"] } =
      (.ok { statusCode := 400,
             body := { pdfFileS3Uri := none, audioS3Uris := none,
                       documentName := "report" } }, []) :=
  empty_text_short_circuit testEnv
    { documentName := "report", questionText := "What happened?",
      documentText := "", audioFiles := ["AA"] } rfl

/-- Unrolling of the audio upload loop: on success the returned URL list
matches the input list index by index, each URL being the presigned URL
of the key under which the decoding of the corresponding input clip was
put, with the enumerate index shifted by the starting index. -/
theorem uploadAudioLoop_ok (env : Env) (sid name : String) :
    ∀ (fs : List String) (i : Nat) (urls : List String) (tr : List Event),
      uploadAudioLoop env sid name i fs = (.ok urls, tr) →
      urls.length = fs.length ∧
      ∀ j f, fs[j]? = some f → ∃ data,
        env.b64decode f = .ok data ∧
        Event.putObject env.bucket (audioKey sid name (i + j)) data true ∈ tr ∧
        urls[j]? = some (env.presign env.bucket (audioKey sid name (i + j))) := by
  intro fs
  induction fs with
  | nil =>
    intro i urls tr h
    simp [uploadAudioLoop] at h
    obtain ⟨hu, htr⟩ := h
    subst hu
    refine ⟨rfl, ?_⟩
    intro j f hj
    simp at hj
  | cons f rest ih =>
    intro i urls tr h
    rcases hd : env.b64decode f with e | data
    · simp [uploadAudioLoop, hd] at h
    · rcases hput : env.putObjectResult (audioKey sid name i) data with e | u
      · simp [uploadAudioLoop, hd, hput] at h
      · rcases hrec : uploadAudioLoop env sid name (i + 1) rest with ⟨res, tr2⟩
        cases res with
        | error e => simp [uploadAudioLoop, hd, hput, hrec] at h
        | ok urls2 =>
          simp [uploadAudioLoop, hd, hput, hrec, generate_presigned_url] at h
          obtain ⟨hurls, htr⟩ := h
          obtain ⟨hlen, hspec⟩ := ih (i + 1) urls2 tr2 hrec
          constructor
          · rw [← hurls]
            simp [hlen]
          · intro j g hj
            cases j with
            | zero =>
              simp at hj
              refine ⟨data, hj ▸ hd, ?_, ?_⟩
              · rw [← htr]
                simp
              · rw [← hurls]
                simp
            | succ j =>
              simp at hj
              obtain ⟨data2, hdec2, hmem, hurl⟩ := hspec j g hj
              have harith : i + (j + 1) = i + 1 + j := by omega
              refine ⟨data2, hdec2, ?_, ?_⟩
              · rw [← htr, harith]
                exact List.mem_cons_of_mem _ (List.mem_cons_of_mem _ hmem)
              · rw [← hurls, harith]
                simpa using hurl

/-- If some element of the audio list fails to decode, the loop always
raises (either at that element or at an earlier failure). -/
theorem uploadAudioLoop_err (env : Env) (sid name : String) :
    ∀ (fs : List String) (i : Nat),
      (∃ (j : Nat) (f : String), fs[j]? = some f ∧
        ∃ e, env.b64decode f = .error e) →
      ∃ e2, (uploadAudioLoop env sid name i fs).1 = .error e2 := by
  intro fs
  induction fs with
  | nil =>
    intro i h
    obtain ⟨j, f, hj, _⟩ := h
    simp at hj
  | cons f rest ih =>
    intro i h
    rcases hd : env.b64decode f with e | data
    · exact ⟨e, by simp [uploadAudioLoop, hd]⟩
    · rcases hput : env.putObjectResult (audioKey sid name i) data with e | u
      · exact ⟨e, by simp [uploadAudioLoop, hd, hput]⟩
      · obtain ⟨j, g, hj, e2, hg⟩ := h
        cases j with
        | zero =>
          simp at hj
          rw [hj] at hd
          rw [hd] at hg
          cases hg
        | succ j =>
          simp at hj
          obtain ⟨e3, h3⟩ := ih (i + 1) ⟨j, g, hj, e2, hg⟩
          rcases hrec : uploadAudioLoop env sid name (i + 1) rest with ⟨res, tr2⟩
          rw [hrec] at h3
          cases res with
          | error e4 => exact ⟨e4, by simp [uploadAudioLoop, hd, hput, hrec]⟩
          | ok urls2 => cases h3

/-! ## C3 -/

/-- C3: on a successful audio upload, the returned URL list has the same
length as the input list and, at every index, holds the presigned URL of
the key under which the decoded bytes of the input clip at that index
were uploaded (index order preserved). -/
theorem audio_urls_match_input (env : Env) (sid name : String)
    (audio_files : List String) (urls : List String) (tr : List Event)
    (h : upload_audio_to_s3 env sid name audio_files = (.ok urls, tr)) :
    urls.length = audio_files.length ∧
    ∀ j f, audio_files[j]? = some f → ∃ data,
      env.b64decode f = .ok data ∧
      Event.putObject env.bucket (audioKey sid name j) data true ∈ tr ∧
      urls[j]? = some (env.presign env.bucket (audioKey sid name j)) := by
  have := uploadAudioLoop_ok env sid name audio_files 0 urls tr h
  simpa using this

/-- Witness for C3 on a two-clip upload in the concrete environment. -/
theorem audio_urls_match_input_witness :
    (["https://s3.example/S/doc_audio_0.webm?sig",
      "https://s3.example/S/doc_audio_1.webm?sig"] : List String).length =
      (["AA", "B"] : List String).length :=
  (audio_urls_match_input testEnv "S" "doc" ["AA", "B"]
    ["https://s3.example/S/doc_audio_0.webm?sig",
     "https://s3.example/S/doc_audio_1.webm?sig"]
    [Event.putObject "bkt" "S/doc_audio_0.webm" [65, 65] true,
     Event.presign "bkt" "S/doc_audio_0.webm" "get_object" 86400,
     Event.putObject "bkt" "S/doc_audio_1.webm" [66] true,
     Event.presign "bkt" "S/doc_audio_1.webm" "get_object" 86400]
    (by rfl)).1

/-! ## Trace discipline: write-before-sign and presign parameters -/

/-- An event that is a successful object-store write of the given key. -/
def writeOk (k : String) : Event → Prop
  | .uploadFile _ key _ ok => key = k ∧ ok = true
  | .putObject _ key _ ok => key = k ∧ ok = true
  | _ => False

/-- Every presigned URL in the trace is minted at a position strictly
after a successful write of the same key. -/
def signAfterWrite (tr : List Event) : Prop :=
  ∀ (j : Nat) (b k m : String) (x : Nat),
    tr[j]? = some (.presign b k m x) →
    ∃ i, i < j ∧ ∃ ev, tr[i]? = some ev ∧ writeOk k ev

/-- Every presign event in the trace is GET-scoped with expiry 86400. -/
def presignDisciplined (tr : List Event) : Prop :=
  ∀ (b k m : String) (x : Nat), Event.presign b k m x ∈ tr →
    m = "get_object" ∧ x = 86400

/-- The conjunction of the two publication disciplines. -/
def publishOk (tr : List Event) : Prop :=
  signAfterWrite tr ∧ presignDisciplined tr

theorem publishOk_nil : publishOk [] := by
  constructor
  · intro j b k m x hj
    simp at hj
  · intro b k m x hmem
    simp at hmem

theorem publishOk_of_no_presign (tr : List Event)
    (h : ∀ (b k m : String) (x : Nat), Event.presign b k m x ∉ tr) :
    publishOk tr := by
  constructor
  · intro j b k m x hj
    exact absurd (List.getElem?_mem hj) (h b k m x)
  · intro b k m x hmem
    exact absurd hmem (h b k m x)

theorem publishOk_pair (w : Event) (b k : String) (hw : writeOk k w) :
    publishOk [w, .presign b k "get_object" 86400] := by
  constructor
  · intro j b2 k2 m2 x2 hj
    match j with
    | 0 =>
      simp at hj
      rw [hj] at hw
      simp [writeOk] at hw
    | 1 =>
      simp at hj
      obtain ⟨hb, hk, hm, hx⟩ := hj
      exact ⟨0, by omega, w, by simp, hk ▸ hw⟩
    | j + 2 => simp at hj
  · intro b2 k2 m2 x2 hmem
    rcases List.mem_cons.mp hmem with hh | ht
    · rw [← hh] at hw
      simp [writeOk] at hw
    · rcases List.mem_cons.mp ht with hh | ht2
      · injection hh with hb hk hm hx
        exact ⟨hm, hx⟩
      · simp at ht2

theorem publishOk_append (t1 t2 : List Event)
    (h1 : publishOk t1) (h2 : publishOk t2) : publishOk (t1 ++ t2) := by
  constructor
  · intro j b k m x hj
    by_cases hlt : j < t1.length
    · rw [List.getElem?_append_left hlt] at hj
      obtain ⟨i, hi, ev, hev, hw⟩ := h1.1 j b k m x hj
      have hi1 : i < t1.length := lt_trans hi hlt
      exact ⟨i, hi, ev, by rw [List.getElem?_append_left hi1]; exact hev, hw⟩
    · push_neg at hlt
      rw [List.getElem?_append_right hlt] at hj
      obtain ⟨i, hi, ev, hev, hw⟩ := h2.1 (j - t1.length) b k m x hj
      refine ⟨t1.length + i, by omega, ev, ?_, hw⟩
      rw [List.getElem?_append_right (by omega)]
      simpa [Nat.add_sub_cancel_left] using hev
  · intro b k m x hmem
    rcases List.mem_append.mp hmem with hh | ht
    · exact h1.2 b k m x hh
    · exact h2.2 b k m x ht

theorem upload_pdf_publishOk (env : Env) (sid path name : String) :
    publishOk (upload_pdf_to_s3 env sid path name).2 := by
  rcases hu : env.uploadFileResult path (sid ++ "/" ++ name ++ ".pdf") with e | u
  · rw [show (upload_pdf_to_s3 env sid path name).2 =
        [Event.uploadFile env.bucket (sid ++ "/" ++ name ++ ".pdf")
          "application/pdf" false] from by simp [upload_pdf_to_s3, hu]]
    exact publishOk_of_no_presign _ (by simp)
  · rw [show (upload_pdf_to_s3 env sid path name).2 =
        [Event.uploadFile env.bucket (sid ++ "/" ++ name ++ ".pdf")
          "application/pdf" true,
         Event.presign env.bucket (sid ++ "/" ++ name ++ ".pdf")
          "get_object" 86400] from by
      simp [upload_pdf_to_s3, hu, generate_presigned_url]]
    exact publishOk_pair _ _ _ ⟨rfl, rfl⟩

theorem uploadAudioLoop_publishOk (env : Env) (sid name : String) :
    ∀ (fs : List String) (i : Nat),
      publishOk (uploadAudioLoop env sid name i fs).2 := by
  intro fs
  induction fs with
  | nil =>
    intro i
    rw [show (uploadAudioLoop env sid name i []).2 = [] from rfl]
    exact publishOk_nil
  | cons f rest ih =>
    intro i
    rcases hd : env.b64decode f with e | data
    · rw [show (uploadAudioLoop env sid name i (f :: rest)).2 = [] from by
        simp [uploadAudioLoop, hd]]
      exact publishOk_nil
    · rcases hput : env.putObjectResult (audioKey sid name i) data with e | u
      · rw [show (uploadAudioLoop env sid name i (f :: rest)).2 =
            [Event.putObject env.bucket (audioKey sid name i) data false] from by
          simp [uploadAudioLoop, hd, hput]]
        exact publishOk_of_no_presign _ (by simp)
      · rcases hrec : uploadAudioLoop env sid name (i + 1) rest with ⟨res, tr2⟩
        have htr2 : publishOk tr2 := by
          have := ih (i + 1)
          rw [hrec] at this
          exact this
        have hpair : publishOk
            [Event.putObject env.bucket (audioKey sid name i) data true,
             Event.presign env.bucket (audioKey sid name i) "get_object" 86400] :=
          publishOk_pair _ _ _ ⟨rfl, rfl⟩
        cases res with
        | error e =>
          rw [show (uploadAudioLoop env sid name i (f :: rest)).2 =
              [Event.putObject env.bucket (audioKey sid name i) data true,
               Event.presign env.bucket (audioKey sid name i)
                "get_object" 86400] ++ tr2 from by
            simp [uploadAudioLoop, hd, hput, hrec, generate_presigned_url]]
          exact publishOk_append _ _ hpair htr2
        | ok urls =>
          rw [show (uploadAudioLoop env sid name i (f :: rest)).2 =
              [Event.putObject env.bucket (audioKey sid name i) data true,
               Event.presign env.bucket (audioKey sid name i)
                "get_object" 86400] ++ tr2 from by
            simp [uploadAudioLoop, hd, hput, hrec, generate_presigned_url]]
          exact publishOk_append _ _ hpair htr2

theorem generate_document_publishOk (env : Env) (n t : String) (x : PyVal)
    (fs : List String) : publishOk (generate_document env n t x fs).2 := by
  rcases hr : render_html_body env t x with e | body
  · rw [show (generate_document env n t x fs).2 = [] from by
      simp [generate_document, hr]]
    exact publishOk_nil
  · rcases hp : generate_pdf env (generate_html env.composeClock body) with e | path
    · rw [show (generate_document env n t x fs).2 = [] from by
        simp [generate_document, hr, hp]]
      exact publishOk_nil
    · rcases hu : upload_pdf_to_s3 env (fmtSession env.utcNow) path n with ⟨ru, tru⟩
      have h1 : publishOk tru := by
        have := upload_pdf_publishOk env (fmtSession env.utcNow) path n
        rw [hu] at this
        exact this
      rcases ha : uploadAudioLoop env (fmtSession env.utcNow) n 0 fs with ⟨ra, tra⟩
      have h2 : publishOk tra := by
        have := uploadAudioLoop_publishOk env (fmtSession env.utcNow) n fs 0
        rw [ha] at this
        exact this
      have ha2 : upload_audio_to_s3 env (fmtSession env.utcNow) n fs = (ra, tra) := ha
      cases ru with
      | error e =>
        rw [show (generate_document env n t x fs).2 = tru from by
          simp [generate_document, hr, hp, hu]]
        exact h1
      | ok url =>
        cases ra with
        | error e =>
          rw [show (generate_document env n t x fs).2 = tru ++ tra from by
            simp [generate_document, hr, hp, hu, ha2]]
          exact publishOk_append _ _ h1 h2
        | ok urls =>
          rw [show (generate_document env n t x fs).2 = tru ++ tra from by
            simp [generate_document, hr, hp, hu, ha2]]
          exact publishOk_append _ _ h1 h2

theorem lambda_handler_publishOk (env : Env) (request : Request) :
    publishOk (lambda_handler env request).2 := by
  by_cases ht : request.documentText = ""
  · rw [show (lambda_handler env request).2 = [] from by simp [lambda_handler, ht]]
    exact publishOk_nil
  · rcases hsum : summarization env request.questionText [request.documentText]
      with ⟨res, tr1⟩
    have htr1 : tr1 = [Event.llmInvoke request.questionText
        [request.documentText]] := by
      have := congrArg Prod.snd hsum
      exact this.symm
    have h1 : publishOk tr1 := by
      rw [htr1]
      exact publishOk_of_no_presign _ (by simp)
    cases res with
    | error e =>
      rw [show (lambda_handler env request).2 = tr1 from by
        simp [lambda_handler, ht, hsum]]
      exact h1
    | ok summary =>
      rcases hgen : generate_document env request.documentName
          request.questionText summary request.audioFiles with ⟨gres, tr2⟩
      have h2 : publishOk tr2 := by
        have := generate_document_publishOk env request.documentName
          request.questionText summary request.audioFiles
        rw [hgen] at this
        exact this
      cases gres with
      | error e =>
        rw [show (lambda_handler env request).2 = tr1 ++ tr2 from by
          simp [lambda_handler, ht, hsum, hgen]]
        exact publishOk_append _ _ h1 h2
      | ok g =>
        rw [show (lambda_handler env request).2 = tr1 ++ tr2 from by
          simp [lambda_handler, ht, hsum, hgen]]
        exact publishOk_append _ _ h1 h2

/-! ## C5 -/

/-- C5: in the event trace of any run, a presigned URL for a key is
minted only at a position strictly after a successful write call for
that same key returned; in particular no URL is ever minted for an
artifact whose upload failed (the only write event before a presign is a
successful one). -/
theorem presign_only_after_successful_write (env : Env) (request : Request)
    (j : Nat) (b k m : String) (x : Nat)
    (hj : ((lambda_handler env request).2)[j]? = some (.presign b k m x)) :
    ∃ i, i < j ∧ ∃ ev, ((lambda_handler env request).2)[i]? = some ev ∧
      writeOk k ev :=
  (lambda_handler_publishOk env request).1 j b k m x hj

/-- Witness for C5: the PDF presign event of the sample run sits at
index 2, after the successful PDF write. -/
theorem presign_only_after_successful_write_witness :
    ∃ i, i < 2 ∧ ∃ ev, ((lambda_handler testEnv okRequest).2)[i]? = some ev ∧
      writeOk "2024-05-06_07-08-09_000010/report.pdf" ev :=
  presign_only_after_successful_write testEnv okRequest 2 "bkt"
    "2024-05-06_07-08-09_000010/report.pdf" "get_object" 86400 (by rfl)

/-! ## C8 -/

/-- C8: every presigned URL minted during any run is GET-scoped
(client method get_object) and expires in exactly 86400 seconds. -/
theorem presign_get_scoped_86400 (env : Env) (request : Request)
    (b k m : String) (x : Nat)
    (hmem : Event.presign b k m x ∈ (lambda_handler env request).2) :
    m = "get_object" ∧ x = 86400 :=
  (lambda_handler_publishOk env request).2 b k m x hmem

/-- Witness for C8 at the audio presign event of the sample run. -/
theorem presign_get_scoped_86400_witness :
    "get_object" = "get_object" ∧ 86400 = 86400 :=
  presign_get_scoped_86400 testEnv okRequest "bkt"
    "2024-05-06_07-08-09_000010/report_audio_0.webm" "get_object" 86400
    (by decide)

/-! ## C6 -/

/-- Any document generation over an audio list containing a clip that
fails to decode raises, whichever stage fails first. -/
theorem generate_document_err_of_bad_audio (env : Env) (n t : String)
    (x : PyVal) (fs : List String)
    (h : ∃ (j : Nat) (f : String), fs[j]? = some f ∧
      ∃ e, env.b64decode f = .error e) :
    ∃ e2, (generate_document env n t x fs).1 = .error e2 := by
  rcases hr : render_html_body env t x with e | body
  · exact ⟨.codeError ("Error generating document: " ++ pyMsg e),
      by simp [generate_document, hr]⟩
  · rcases hp : generate_pdf env (generate_html env.composeClock body) with e | path
    · exact ⟨.codeError ("Error generating document: " ++ pyMsg e),
        by simp [generate_document, hr, hp]⟩
    · rcases hu : upload_pdf_to_s3 env (fmtSession env.utcNow) path n with ⟨ru, tru⟩
      cases ru with
      | error e => exact ⟨.codeError ("Error generating document: " ++ pyMsg e),
          by simp [generate_document, hr, hp, hu]⟩
      | ok url =>
        obtain ⟨e2, h2⟩ := uploadAudioLoop_err env (fmtSession env.utcNow) n fs 0 h
        rcases ha : uploadAudioLoop env (fmtSession env.utcNow) n 0 fs with ⟨ra, tra⟩
        rw [ha] at h2
        have ha2 : upload_audio_to_s3 env (fmtSession env.utcNow) n fs =
            (ra, tra) := ha
        cases ra with
        | error e3 => exact ⟨.codeError ("Error generating document: " ++ pyMsg e3),
            by simp [generate_document, hr, hp, hu, ha2]⟩
        | ok urls => simp at h2

/-- C6: when some element of audioFiles fails base64 decoding, no run
over that list ever completes successfully: the caller never observes
status 200, any returned response (the empty-text rejection) has a null
audioS3Uris field rather than a partial list, a run that processes the
text raises out of the handler, and generate_document always raises on
that audio list. -/
theorem bad_audio_fails_run (env : Env) (request : Request)
    (h : ∃ (j : Nat) (f : String), request.audioFiles[j]? = some f ∧
      ∃ e, env.b64decode f = .error e) :
    pipelineStatus (lambda_handler env request).1 ≠ 200 ∧
    (∀ resp, (lambda_handler env request).1 = .ok resp →
      resp.body.audioS3Uris = none) ∧
    (request.documentText ≠ "" →
      ∃ e, (lambda_handler env request).1 = .error e) ∧
    (∀ (n t : String) (x : PyVal),
      ∃ e, (generate_document env n t x request.audioFiles).1 = .error e) := by
  have hgen : ∀ (n t : String) (x : PyVal),
      ∃ e, (generate_document env n t x request.audioFiles).1 = .error e :=
    fun n t x => generate_document_err_of_bad_audio env n t x request.audioFiles h
  by_cases ht : request.documentText = ""
  · refine ⟨?_, ?_, fun hc => absurd ht hc, hgen⟩
    · simp [lambda_handler, ht, pipelineStatus]
    · intro resp hresp
      simp [lambda_handler, ht] at hresp
      rw [← hresp]
  · rcases hsum : summarization env request.questionText [request.documentText]
      with ⟨res, tr1⟩
    cases res with
    | error e =>
      refine ⟨?_, ?_, fun _ => ⟨e, ?_⟩, hgen⟩
      · simp [lambda_handler, ht, hsum, pipelineStatus]
      · intro resp hresp
        simp [lambda_handler, ht, hsum] at hresp
      · simp [lambda_handler, ht, hsum]
    | ok summary =>
      obtain ⟨e2, h2⟩ := hgen request.documentName request.questionText summary
      rcases hgp : generate_document env request.documentName
          request.questionText summary request.audioFiles with ⟨gres, tr2⟩
      rw [hgp] at h2
      simp at h2
      subst h2
      refine ⟨?_, ?_, fun _ => ⟨e2, ?_⟩, hgen⟩
      · simp [lambda_handler, ht, hsum, hgp, pipelineStatus]
      · intro resp hresp
        simp [lambda_handler, ht, hsum, hgp] at hresp
      · simp [lambda_handler, ht, hsum, hgp]

/-- A request whose second audio clip is not valid base64 under the
concrete environment. -/
def badAudioRequest : Request :=
  { okRequest with audioFiles := ["AA", "%%%"] }

/-- Witness for C6: the sample run over a bad audio list never reaches
status 200. -/
theorem bad_audio_fails_run_witness :
    pipelineStatus (lambda_handler testEnv badAudioRequest).1 ≠ 200 :=
  (bad_audio_fails_run testEnv badAudioRequest
    ⟨1, "%%%", rfl, ⟨.binascii "Invalid base64-encoded string", rfl⟩⟩).1

/-! ## C7 -/

/-- On a successful PDF upload the trace records the successful write of
the key session_id/document_name.pdf. -/
theorem upload_pdf_ok_event (env : Env) (sid path n url : String)
    (tr : List Event) (h : upload_pdf_to_s3 env sid path n = (.ok url, tr)) :
    Event.uploadFile env.bucket (sid ++ "/" ++ n ++ ".pdf")
      "application/pdf" true ∈ tr := by
  rcases hu : env.uploadFileResult path (sid ++ "/" ++ n ++ ".pdf") with e | u
  · simp [upload_pdf_to_s3, hu] at h
  · simp [upload_pdf_to_s3, hu, generate_presigned_url] at h
    rw [← h.2]
    simp

/-- On a successful generation run the trace records the successful PDF
write under sessionId/documentName.pdf and, for every input index, a
successful audio write under sessionId/documentName_audio_index.webm,
with the one session id minted from the UTC clock. -/
theorem generate_document_ok_events (env : Env) (n t : String) (x : PyVal)
    (fs : List String) (g : GenResponse) (tr : List Event)
    (h : generate_document env n t x fs = (.ok g, tr)) :
    Event.uploadFile env.bucket
      (fmtSession env.utcNow ++ "/" ++ n ++ ".pdf") "application/pdf" true ∈ tr ∧
    ∀ (j : Nat) (f : String), fs[j]? = some f → ∃ data,
      Event.putObject env.bucket (audioKey (fmtSession env.utcNow) n j)
        data true ∈ tr := by
  rcases hr : render_html_body env t x with e | body
  · simp [generate_document, hr] at h
  · rcases hp : generate_pdf env (generate_html env.composeClock body) with e | path
    · simp [generate_document, hr, hp] at h
    · rcases hu : upload_pdf_to_s3 env (fmtSession env.utcNow) path n with ⟨ru, tru⟩
      cases ru with
      | error e => simp [generate_document, hr, hp, hu] at h
      | ok url =>
        rcases ha : uploadAudioLoop env (fmtSession env.utcNow) n 0 fs with ⟨ra, tra⟩
        have ha2 : upload_audio_to_s3 env (fmtSession env.utcNow) n fs =
            (ra, tra) := ha
        cases ra with
        | error e => simp [generate_document, hr, hp, hu, ha2] at h
        | ok urls =>
          simp [generate_document, hr, hp, hu, ha2] at h
          rw [← h.2]
          constructor
          · exact List.mem_append_left _ (upload_pdf_ok_event env _ path n url tru hu)
          · intro j f hj
            obtain ⟨hlen, hspec⟩ :=
              uploadAudioLoop_ok env (fmtSession env.utcNow) n fs 0 urls tra ha
            obtain ⟨data, hdec, hmem, hurl⟩ := hspec j f hj
            exact ⟨data, List.mem_append_right _ (by simpa using hmem)⟩

/-- C7: a run that returns status 200 has uploaded the PDF under the key
sessionId/documentName.pdf and the clip of every audio index j under
sessionId/documentName_audio_j.webm, where the shared sessionId is the
microsecond-precision strftime rendering of the single UTC clock
reading. -/
theorem artifacts_share_session_keys (env : Env) (request : Request)
    (resp : Response) (hok : (lambda_handler env request).1 = .ok resp)
    (h200 : resp.statusCode = 200) :
    Event.uploadFile env.bucket
      (fmtSession env.utcNow ++ "/" ++ request.documentName ++ ".pdf")
      "application/pdf" true ∈ (lambda_handler env request).2 ∧
    ∀ (j : Nat) (f : String), request.audioFiles[j]? = some f → ∃ data,
      Event.putObject env.bucket
        (audioKey (fmtSession env.utcNow) request.documentName j) data true ∈
        (lambda_handler env request).2 := by
  by_cases ht : request.documentText = ""
  · simp [lambda_handler, ht] at hok
    rw [← hok] at h200
    simp at h200
  · rcases hsum : summarization env request.questionText [request.documentText]
      with ⟨res, tr1⟩
    cases res with
    | error e => simp [lambda_handler, ht, hsum] at hok
    | ok summary =>
      rcases hgen : generate_document env request.documentName
          request.questionText summary request.audioFiles with ⟨gres, tr2⟩
      cases gres with
      | error e => simp [lambda_handler, ht, hsum, hgen] at hok
      | ok g =>
        obtain ⟨hpdf, haudio⟩ := generate_document_ok_events env
          request.documentName request.questionText summary request.audioFiles
          g tr2 hgen
        have htrace : (lambda_handler env request).2 = tr1 ++ tr2 := by
          simp [lambda_handler, ht, hsum, hgen]
        rw [htrace]
        constructor
        · exact List.mem_append_right _ hpdf
        · intro j f hj
          obtain ⟨data, hmem⟩ := haudio j f hj
          exact ⟨data, List.mem_append_right _ hmem⟩

/-- Witness for C7: the sample run uploaded its PDF under the session
timestamp key. -/
theorem artifacts_share_session_keys_witness :
    Event.uploadFile "bkt" "2024-05-06_07-08-09_000010/report.pdf"
      "application/pdf" true ∈ (lambda_handler testEnv okRequest).2 :=
  (artifacts_share_session_keys testEnv okRequest
    { statusCode := 200,
      body := { pdfFileS3Uri :=
                  some "https://s3.example/2024-05-06_07-08-09_000010/report.pdf?sig",
                audioS3Uris :=
                  some ["https://s3.example/2024-05-06_07-08-09_000010/report_audio_0.webm?sig",
                        "https://s3.example/2024-05-06_07-08-09_000010/report_audio_1.webm?sig"],
                documentName := "report" } }
    (by rfl) rfl).1

/-! ## C4 -/

/-- C4 counterexample: for an LLM output whose tag structure is absent
(a parsed dict with no Output entry), summarization fails with the
UnboundLocalError that escapes parse_summary, which is not a ParseError
of the output parser. -/
theorem summarization_tag_absent_not_parse_error :
    (summarization tagAbsentEnv "q" ["a"]).1 = .error .unboundLocal ∧
    ∀ m, PyErr.unboundLocal = PyErr.outputParser m → False :=
  ⟨rfl, fun _ h => PyErr.noConfusion h⟩

/-- C4 (amended): the summarization operation never substitutes a value.
When the chain output parses but the Output/Summary tag structure is
absent it fails — with the accidental UnboundLocalError of parse_summary
rather than a parse error; when the XML itself is malformed the parser
error of the chain propagates; and any successful result is exactly the
looked-up tag content. -/
theorem summarization_fails_closed (env : Env) (question : String)
    (answers : List String) :
    (∀ v, env.chainInvoke question answers = .ok v → parseChain v = none →
      (summarization env question answers).1 = .error .unboundLocal) ∧
    (∀ e, env.chainInvoke question answers = .error e →
      (summarization env question answers).1 = .error e) ∧
    (∀ v, (summarization env question answers).1 = .ok v →
      ∃ v0, env.chainInvoke question answers = .ok v0 ∧
        parseChain v0 = some v) := by
  refine ⟨?_, ?_, ?_⟩
  · intro v hv hp
    simp [summarization, hv, parse_summary, hp]
  · intro e he
    simp [summarization, he]
  · intro v hv
    rcases hc : env.chainInvoke question answers with e | v0
    · simp [summarization, hc] at hv
    · simp [summarization, hc, parse_summary] at hv
      rcases hp : parseChain v0 with _ | w
      · rw [hp] at hv
        simp at hv
      · rw [hp] at hv
        simp at hv
        exact ⟨v0, rfl, by rw [hp, hv]⟩

/-- Witness for C4: the tag-absent chain output fails with
UnboundLocalError, and a malformed-XML chain failure propagates as the
parser error. -/
theorem summarization_fails_closed_witness :
    (summarization tagAbsentEnv "q2" ["b"]).1 = .error .unboundLocal ∧
    (summarization malformedXmlEnv "q2" ["b"]).1 =
      .error (.outputParser "Failed to parse XML") :=
  ⟨(summarization_fails_closed tagAbsentEnv "q2" ["b"]).1 (.dict []) rfl rfl,
   (summarization_fails_closed malformedXmlEnv "q2" ["b"]).2.1
     (.outputParser "Failed to parse XML") rfl⟩

/-! ## C9 -/

/-- The fixed document text preceding the embedded clock reading. -/
def composePre : String :=
  "<html>\n  <head>\n    <style>" ++ styleCssPre

/-- The fixed document text following the embedded clock reading,
determined by the title and the body fragment alone. -/
def composePost (title frag : String) : String :=
  styleCssPost ++ "</style>\n  </head>\n  <body>" ++
    (add_document_title title ++ frag) ++ "</body>\n</html>"

/-- The composed document splits as prefix, clock, suffix. -/
theorem generate_html_decomp (clock title frag : String) :
    generate_html clock (add_document_title title ++ frag) =
      composePre ++ clock ++ composePost title frag := by
  simp [generate_html, composePre, composePost, String.append_assoc]

/-- Middle-cancellation for string concatenation. -/
theorem string_append_cancel_middle (pre post s1 s2 : String)
    (h : pre ++ s1 ++ post = pre ++ s2 ++ post) : s1 = s2 := by
  have hd := congrArg String.data h
  simp only [String.data_append, List.append_assoc] at hd
  exact String.ext
    (List.append_cancel_right (List.append_cancel_left hd))

/-- C9: composing the same title and body fragment is deterministic in
the clock — two compositions coincide exactly when their composition-time
clock readings coincide (byte-identical at the same instant, observably
different otherwise) — and the clock reading is the only variable part:
the document is a fixed prefix, then the clock string, then a suffix
determined by title and body alone. -/
theorem compose_identical_modulo_timestamp (title frag : String) :
    (∃ pre post : String, ∀ clock : String,
      generate_html clock (add_document_title title ++ frag) =
        pre ++ clock ++ post) ∧
    ∀ clock1 clock2 : String,
      generate_html clock1 (add_document_title title ++ frag) =
        generate_html clock2 (add_document_title title ++ frag) ↔
      clock1 = clock2 := by
  constructor
  · exact ⟨composePre, composePost title frag,
      fun clock => generate_html_decomp clock title frag⟩
  · intro clock1 clock2
    constructor
    · intro h
      rw [generate_html_decomp clock1 title frag,
        generate_html_decomp clock2 title frag] at h
      exact string_append_cancel_middle _ _ _ _ h
    · intro h
      rw [h]

/-! ## C10 -/

/-- C10: before markdown conversion every summary is unicode-escape
decoded — a failing decode aborts both the body rendering and the whole
document generation with a CodeError — and the decoded text loses exactly
its first and last characters when it both starts and ends with a double
quote (so a legitimately quote-delimited summary loses its quotes), while
any other text is kept whole; the result is whitespace-trimmed and handed
to the markdown renderer after the title heading. -/
theorem summary_quote_stripping (env : Env) (title s name : String)
    (fs : List String) :
    (∀ e, env.unicodeEscape s = .error e →
      render_html_body env title (.str s) =
        .error (.codeError ("Error while generating HTML body: " ++ pyMsg e)) ∧
      (generate_document env name title (.str s) fs).1 =
        .error (.codeError ("Error generating document: " ++
          ("Error while generating HTML body: " ++ pyMsg e)))) ∧
    (∀ t, env.unicodeEscape s = .ok t →
      t.data.head? = some '"' → t.data.getLast? = some '"' →
      render_html_body env title (.str s) =
        .ok (add_document_title title ++
          env.markdown (pyStrip (String.mk (t.data.drop 1).dropLast)))) ∧
    (∀ t, env.unicodeEscape s = .ok t →
      ¬(t.data.head? = some '"' ∧ t.data.getLast? = some '"') →
      render_html_body env title (.str s) =
        .ok (add_document_title title ++ env.markdown (pyStrip t))) := by
  refine ⟨?_, ?_, ?_⟩
  · intro e he
    have hrender : render_html_body env title (.str s) =
        .error (.codeError ("Error while generating HTML body: " ++ pyMsg e)) := by
      simp [render_html_body, pyStr, he]
    refine ⟨hrender, ?_⟩
    simp [generate_document, hrender, pyMsg]
  · intro t ht hstart hend
    simp [render_html_body, pyStr, ht, markdown_to_html,
      stripEnclosingQuotes, hstart, hend]
  · intro t ht hq
    have hsq : stripEnclosingQuotes t = t := by
      rw [stripEnclosingQuotes, if_neg]
      simpa [Bool.and_eq_true, beq_iff_eq] using hq
    simp [render_html_body, pyStr, ht, markdown_to_html, hsq]

/-- Witness for C10: in the concrete environment the input q decodes to
a double-quoted summary that loses its quotes, and the lone escape input
aborts the rendering. -/
theorem summary_quote_stripping_witness :
    render_html_body testEnv "T" (.str "q") =
      .ok (add_document_title "T" ++ testEnv.markdown
        (pyStrip (String.mk ("\"quoted\"".data.drop 1).dropLast))) ∧
    render_html_body testEnv "T" (.str "\\x") =
      .error (.codeError ("Error while generating HTML body: " ++
        "unicodeescape codec decode failure")) :=
  ⟨(summary_quote_stripping testEnv "T" "q" "doc" []).2.1
      "\"quoted\"" rfl (by decide) (by decide),
   ((summary_quote_stripping testEnv "T" "\\x" "doc" []).1
      (.valueError "unicodeescape codec decode failure") rfl).1⟩

end KnowledgeCapture
